import Mathlib

/-!
Shallow embedding of the subject-line scorer from `src/api/index.py`
(`subject_line_scorer` and its rule tables), together with proofs of the
specified properties.

Strings are modelled at the level of Unicode code points (`List Char`);
the character classes used by the code (`str.strip` whitespace,
`str.lower`, the regex classes `\w` and `[A-Z]`) are modelled on their
ASCII behaviour, which is exact for all inputs appearing in the spec.
-/

namespace SubjectScorer

/-- Embedding of `SPAM_TERMS` (src/api/index.py lines 11-14), in source order. -/
def SPAM_TERMS : List String :=
  ["free", "guarantee", "guaranteed", "urgent",
   "act now", "limited time", "winner", "cash", "100%"]

/-- The ASCII single-quote character (code point 39). -/
def squote : String := String.mk [Char.ofNat 39]

/-- Embedding of the warning f-string of line 93: the fixed prefix
`Spam term detected: ` followed by the matched term wrapped in single
quotes. -/
def spamWarning (t : String) : String :=
  "Spam term detected: " ++ squote ++ t ++ squote

/-- Embedding of Python `str.strip()` (line 67): drop whitespace from both ends. -/
def pyStrip (s : String) : String :=
  String.mk (((s.data.dropWhile Char.isWhitespace).reverse.dropWhile
    Char.isWhitespace).reverse)

/-- A word character in the sense of the regex class `\w`: alphanumeric or
underscore (ASCII model). -/
def wordChar (c : Char) : Bool := c.isAlphanum || c == '_'

/-- Embedding of `ALL_CAPS_PATTERN.search(subject)` where
`ALL_CAPS_PATTERN = re.compile(r"\b[A-Z]{4,}\b")` (lines 15 and 99):
the regex matches iff some segment of at least 4 uppercase letters
`s[i..j)` has a word boundary on both sides, i.e. the character before
position `i` (if any) and the character at position `j` (if any) are
not word characters.  (`Char.isUpper` is exactly the ASCII class `[A-Z]`.) -/
def allCapsSearch (s : List Char) : Bool :=
  (List.range (s.length + 1)).any fun i =>
    (List.range (s.length + 1)).any fun j =>
      decide (i + 4 ≤ j) &&
      ((s.drop i).take (j - i)).all Char.isUpper &&
      (decide (i = 0) || !wordChar (s.getD (i - 1) ' ')) &&
      (decide (j = s.length) || !wordChar (s.getD j ' '))

/-- Score deduction of the length rule (lines 82-87). -/
def lengthPenalty (n : Nat) : Int :=
  if n > 60 then 25 else if n > 45 then 15 else 0

/-- Warnings appended by the length rule (lines 82-87). -/
def lengthWarnings (n : Nat) : List String :=
  if n > 60 then ["Too long (60+ characters)"]
  else if n > 45 then ["Long (45+ characters)"] else []

/-- Spam terms found in the lowercased subject, in `SPAM_TERMS` order:
embedding of the loop condition `term in lower` (lines 90-91). -/
def spamFound (lower : List Char) : List String :=
  SPAM_TERMS.filter fun t => decide (t.data <:+: lower)

/-- Embedding of `subject.count("!") >= 2` (line 95). -/
def exclaimFires (subject : List Char) : Bool :=
  decide (2 ≤ subject.count '!')

/-- The score accumulated by lines 69-101 before clamping: each rule that
fires subtracts its deduction from the initial 100. -/
def rawScore (subject : List Char) : Int :=
  100 - lengthPenalty subject.length
    - 20 * (spamFound (subject.map Char.toLower)).length
    - (if exclaimFires subject then 10 else 0)
    - (if allCapsSearch subject then 10 else 0)

/-- Embedding of line 104: risk class from the clamped score. -/
def spamRisk (score : Int) : String :=
  if score ≥ 80 then "Low" else if score ≥ 60 then "Medium" else "High"

/-- One entry of the `results` list (lines 73-79 and 106-112). -/
structure ScoreReport where
  subject : String
  score : Int
  length : Nat
  spam_risk : String
  warnings : List String
  deriving DecidableEq, Repr

/-- The report built for a non-empty trimmed subject (lines 69-112): the
warnings are appended in rule order (length, spam terms in list order,
exclamation, all-caps), and the score is the clamped `rawScore`. -/
def scoreNonEmpty (subject : String) : ScoreReport :=
  let s := subject.data
  let clamped : Int := max 0 (min 100 (rawScore s))
  { subject := subject
    score := clamped
    length := s.length
    spam_risk := spamRisk clamped
    warnings :=
      lengthWarnings s.length
      ++ (spamFound (s.map Char.toLower)).map spamWarning
      ++ (if exclaimFires s then ["Too many exclamation marks"] else [])
      ++ (if allCapsSearch s then ["Contains ALL CAPS words"] else []) }

/-- Per-line scoring (lines 66-112).  A missing entry is coerced to the
empty string by `(subject or "")`; the trimmed-empty case short-circuits
with the fixed empty-subject report (lines 72-80). -/
def scoreLine (raw : Option String) : ScoreReport :=
  let subject := pyStrip (raw.getD "")
  if subject.data.length = 0 then
    { subject := subject, score := 0, length := 0, spam_risk := "High",
      warnings := ["Empty subject line"] }
  else
    scoreNonEmpty subject

/-- Embedding of Python `max(results, key=lambda x: x["score"])` (line 114):
scan left to right, replacing the current best only on a strictly larger
score, so the first maximum is kept. -/
def maxByScore : ScoreReport → List ScoreReport → ScoreReport
  | best, [] => best
  | best, r :: rs => maxByScore (if best.score < r.score then r else best) rs

/-- The response record of the endpoint (line 115). -/
structure BatchResult where
  best_subject : String
  results : List ScoreReport
  deriving DecidableEq, Repr

/-- Embedding of the endpoint body `subject_line_scorer` (lines 61-115). -/
def subject_line_scorer (lines : List (Option String)) : BatchResult :=
  let results := lines.map scoreLine
  { best_subject :=
      match results with
      | [] => ""
      | r :: rs => (maxByScore r rs).subject
    results := results }

end SubjectScorer

namespace SubjectScorer

/-! ### Helper lemmas -/

lemma scoreLine_of_ne (s : String) (h : (pyStrip s).data ≠ []) :
    scoreLine (some s) = scoreNonEmpty (pyStrip s) := by
  have hlen : (pyStrip s).data.length ≠ 0 :=
    fun hl => h (List.length_eq_zero.mp hl)
  unfold scoreLine
  rw [Option.getD_some, if_neg hlen]

lemma scoreLine_score_bounds (raw : Option String) :
    0 ≤ (scoreLine raw).score ∧ (scoreLine raw).score ≤ 100 := by
  unfold scoreLine
  by_cases h : (pyStrip (raw.getD "")).data.length = 0
  · simp [h]
  · simp only [h, if_false, scoreNonEmpty]
    refine ⟨le_max_left 0 _, max_le (by norm_num) ?_⟩
    exact min_le_left _ _

/-! ### C1: score range invariant -/

/-- C1: for every input batch and every ScoreReport produced by the scorer,
the score is an integer with 0 ≤ score ≤ 100. -/
theorem c1_score_in_range (lines : List (Option String)) (r : ScoreReport)
    (h : r ∈ (subject_line_scorer lines).results) :
    0 ≤ r.score ∧ r.score ≤ 100 := by
  have hres : (subject_line_scorer lines).results = lines.map scoreLine := rfl
  rw [hres] at h
  rcases List.mem_map.mp h with ⟨raw, -, rfl⟩
  exact scoreLine_score_bounds raw

theorem c1_witness :
    scoreLine (some "Hello") ∈ (subject_line_scorer [some "Hello"]).results ∧
      (0 ≤ (scoreLine (some "Hello")).score ∧
        (scoreLine (some "Hello")).score ≤ 100) :=
  ⟨by decide, c1_score_in_range [some "Hello"] _ (by decide)⟩

/-! ### C4: empty trimmed lines -/

/-- C4: any entry whose trimmed form is empty (incl. a null entry coerced to
the empty string) is reported exactly as the fixed empty-subject report, and
no further rules contribute to it. -/
theorem c4_empty_line (raw : Option String)
    (h : (pyStrip (raw.getD "")).data = []) :
    scoreLine raw =
      { subject := "", score := 0, length := 0, spam_risk := "High",
        warnings := ["Empty subject line"] } := by
  have hs : pyStrip (raw.getD "") = "" := String.ext h
  unfold scoreLine
  simp [h, hs]

theorem c4_witness :
    (pyStrip ((some "   ").getD "")).data = [] ∧
      scoreLine (some "   ") =
        { subject := "", score := 0, length := 0, spam_risk := "High",
          warnings := ["Empty subject line"] } :=
  ⟨by decide, c4_empty_line (some "   ") (by decide)⟩

/-! ### C9: totality and null coercion -/

/-- C9: the scorer is total: it yields one report per input entry, and a null
entry is coerced to the empty string and handled by the empty-subject branch. -/
theorem c9_total (lines : List (Option String)) :
    (subject_line_scorer lines).results.length = lines.length ∧
      ∀ i : Nat, lines[i]? = some none →
        (subject_line_scorer lines).results[i]? =
          some ({ subject := "", score := 0, length := 0, spam_risk := "High",
                  warnings := ["Empty subject line"] } : ScoreReport) := by
  constructor
  · exact List.length_map _ _
  · intro i hi
    have hres : (subject_line_scorer lines).results = lines.map scoreLine := rfl
    rw [hres, List.getElem?_map, hi]
    decide

theorem c9_witness :
    (subject_line_scorer [none]).results.length = 1 ∧
      (subject_line_scorer [none]).results[0]? =
        some { subject := "", score := 0, length := 0, spam_risk := "High",
               warnings := ["Empty subject line"] } :=
  ⟨(c9_total [none]).1, (c9_total [none]).2 0 (by decide)⟩

end SubjectScorer

namespace SubjectScorer

/-! ### C2: the "Buy now!! FREE cash guaranteed" example -/

/-- C2 counterexample: on `"Buy now!! FREE cash guaranteed"` the final score
is 0, not 30, and the warnings are not the four claimed ones: the term
`"guarantee"` also matches (as a substring of `"guaranteed"`) and the run
`FREE` triggers the all-caps rule. -/
theorem c2_counterexample :
    ¬((scoreLine (some "Buy now!! FREE cash guaranteed")).score = 30 ∧
      (scoreLine (some "Buy now!! FREE cash guaranteed")).warnings =
        [spamWarning "free", spamWarning "cash", spamWarning "guaranteed",
         "Too many exclamation marks"]) := by
  decide

/-- C2 amended: scoring `"Buy now!! FREE cash guaranteed"` yields spam-term
warnings for the four terms free, guarantee, guaranteed, cash (each once, in
list order), plus "Too many exclamation marks" and "Contains ALL CAPS words";
the final score is max 0 (100 - 4*20 - 10 - 10) = 0 and spam_risk is High. -/
theorem c2_amended_report :
    scoreLine (some "Buy now!! FREE cash guaranteed") =
      { subject := "Buy now!! FREE cash guaranteed", score := 0, length := 30,
        spam_risk := "High",
        warnings := [spamWarning "free", spamWarning "guarantee",
          spamWarning "guaranteed", spamWarning "cash",
          "Too many exclamation marks", "Contains ALL CAPS words"] } := by
  decide

end SubjectScorer

namespace SubjectScorer

/-! ### Counting helper lemmas for warnings -/

lemma count_map_filter_of_nodup {α β : Type} [DecidableEq α] [DecidableEq β]
    (f : α → β) (p : α → Bool) :
    ∀ l : List α, l.Nodup → (∀ a ∈ l, ∀ b ∈ l, f a = f b → a = b) →
      ∀ t ∈ l, ((l.filter p).map f).count (f t) = if p t then 1 else 0 := by
  intro l
  induction l with
  | nil => intro _ _ t ht; cases ht
  | cons a l ih =>
    intro hnd hinj t ht
    have ha : a ∉ l := (List.nodup_cons.mp hnd).1
    have hndl : l.Nodup := (List.nodup_cons.mp hnd).2
    have hinjl : ∀ x ∈ l, ∀ y ∈ l, f x = f y → x = y := fun x hx y hy =>
      hinj x (List.mem_cons_of_mem _ hx) y (List.mem_cons_of_mem _ hy)
    rcases List.mem_cons.mp ht with rfl | htl
    · have hzero : ((l.filter p).map f).count (f t) = 0 := by
        rw [List.count_eq_zero]
        intro hmem
        rcases List.mem_map.mp hmem with ⟨b, hb, hfb⟩
        have hbl : b ∈ l := List.mem_of_mem_filter hb
        have hbt : b = t :=
          hinj b (List.mem_cons_of_mem _ hbl) t (List.mem_cons_self _ _) hfb
        exact ha (hbt ▸ hbl)
      by_cases hp : p t
      · rw [List.filter_cons_of_pos hp, List.map_cons, List.count_cons_self,
          hzero, if_pos hp]
      · rw [List.filter_cons_of_neg hp, hzero, if_neg hp]
    · have hne : f t ≠ f a := by
        intro hfe
        have hat : a = t :=
          hinj a (List.mem_cons_self _ _) t (List.mem_cons_of_mem _ htl) hfe.symm
        exact ha (hat ▸ htl)
      have ihv := ih hndl hinjl t htl
      by_cases hp : p a
      · rw [List.filter_cons_of_pos hp, List.map_cons,
          List.count_cons_of_ne hne, ihv]
      · rw [List.filter_cons_of_neg hp, ihv]

lemma spam_terms_nodup : SPAM_TERMS.Nodup := by decide

lemma spamWarning_inj :
    ∀ a ∈ SPAM_TERMS, ∀ b ∈ SPAM_TERMS, spamWarning a = spamWarning b → a = b := by
  decide

lemma spamWarning_ne_fixed :
    ∀ t ∈ SPAM_TERMS,
      spamWarning t ≠ "Too long (60+ characters)" ∧
      spamWarning t ≠ "Long (45+ characters)" ∧
      spamWarning t ≠ "Too many exclamation marks" ∧
      spamWarning t ≠ "Contains ALL CAPS words" := by
  decide

lemma count_spamWarning_lengthWarnings {t : String} (ht : t ∈ SPAM_TERMS)
    (n : Nat) : (lengthWarnings n).count (spamWarning t) = 0 := by
  obtain ⟨h1, h2, -, -⟩ := spamWarning_ne_fixed t ht
  unfold lengthWarnings
  split_ifs <;> simp [List.count_eq_zero, h1, h2]

/-! ### C3: spam-term penalty fires once per distinct term -/

/-- C3: on a non-empty trimmed line, each of the nine fixed terms contributes
exactly one warning when it occurs (case-insensitively) as a substring and
none otherwise, and the score subtracts 20 for each distinct term found
(penalties stack, applied before clamping). -/
theorem c3_spam_term_penalty (s : String) (h : (pyStrip s).data ≠ []) :
    (∀ t ∈ SPAM_TERMS,
      (scoreLine (some s)).warnings.count (spamWarning t) =
        if t.data <:+: ((pyStrip s).data.map Char.toLower) then 1 else 0) ∧
    (scoreLine (some s)).score =
      max 0 (min 100 (100 - lengthPenalty (pyStrip s).data.length
        - 20 * (spamFound ((pyStrip s).data.map Char.toLower)).length
        - (if exclaimFires (pyStrip s).data then 10 else 0)
        - (if allCapsSearch (pyStrip s).data then 10 else 0))) := by
  rw [scoreLine_of_ne s h]
  constructor
  · intro t ht
    obtain ⟨-, -, h3, h4⟩ := spamWarning_ne_fixed t ht
    show (lengthWarnings (pyStrip s).data.length
        ++ (spamFound ((pyStrip s).data.map Char.toLower)).map spamWarning
        ++ (if exclaimFires (pyStrip s).data
            then ["Too many exclamation marks"] else [])
        ++ (if allCapsSearch (pyStrip s).data
            then ["Contains ALL CAPS words"] else [])).count (spamWarning t) = _
    rw [List.count_append, List.count_append, List.count_append]
    have hLW := count_spamWarning_lengthWarnings ht (pyStrip s).data.length
    have hSW := count_map_filter_of_nodup spamWarning
      (fun u => decide (u.data <:+: ((pyStrip s).data.map Char.toLower)))
      SPAM_TERMS spam_terms_nodup spamWarning_inj t ht
    have hEW : (if exclaimFires (pyStrip s).data
        then ["Too many exclamation marks"] else []).count (spamWarning t) = 0 := by
      split_ifs <;> simp [List.count_eq_zero, h3]
    have hCW : (if allCapsSearch (pyStrip s).data
        then ["Contains ALL CAPS words"] else []).count (spamWarning t) = 0 := by
      split_ifs <;> simp [List.count_eq_zero, h4]
    rw [hLW, hEW, hCW]
    rw [show spamFound ((pyStrip s).data.map Char.toLower) =
      SPAM_TERMS.filter
        (fun u => decide (u.data <:+: ((pyStrip s).data.map Char.toLower))) from rfl]
    rw [hSW]
    by_cases hp : t.data <:+: ((pyStrip s).data.map Char.toLower)
    · rw [if_pos (by exact decide_eq_true hp), if_pos hp]
    · rw [if_neg (by simpa using hp), if_neg hp]
  · rfl

theorem c3_witness :
    (pyStrip "free cash").data ≠ [] ∧
      (scoreLine (some "free cash")).warnings.count (spamWarning "free") = 1 ∧
      (scoreLine (some "free cash")).warnings.count (spamWarning "urgent") = 0 := by
  have hmain := c3_spam_term_penalty "free cash" (by decide)
  refine ⟨by decide, ?_, ?_⟩
  · have hc := hmain.1 "free" (by decide)
    rwa [if_pos (by decide)] at hc
  · have hc := hmain.1 "urgent" (by decide)
    rwa [if_neg (by decide)] at hc

end SubjectScorer

namespace SubjectScorer

/-! ### More warning-count helpers -/

lemma scoreNonEmpty_score (t : String) :
    (scoreNonEmpty t).score = max 0 (min 100 (rawScore t.data)) := rfl

lemma scoreNonEmpty_warnings (t : String) :
    (scoreNonEmpty t).warnings =
      lengthWarnings t.data.length
      ++ (spamFound (t.data.map Char.toLower)).map spamWarning
      ++ (if exclaimFires t.data then ["Too many exclamation marks"] else [])
      ++ (if allCapsSearch t.data then ["Contains ALL CAPS words"] else []) := rfl

lemma scoreLine_getD (raw : Option String) :
    scoreLine raw = scoreLine (some (raw.getD "")) := by
  cases raw <;> rfl

lemma count_spam_seg_zero (lw : List Char) (w : String)
    (hspam : ∀ t ∈ SPAM_TERMS, spamWarning t ≠ w) :
    ((spamFound lw).map spamWarning).count w = 0 := by
  rw [List.count_eq_zero]
  intro hmem
  rcases List.mem_map.mp hmem with ⟨t, ht, hft⟩
  exact hspam t (List.mem_of_mem_filter ht) hft

lemma count_ite_singleton_zero (b : Bool) (x w : String) (hw : w ≠ x) :
    (if b then [x] else []).count w = 0 := by
  cases b <;> simp [List.count_eq_zero, hw]

/-! ### C6: length penalties are mutually exclusive, longer first -/

/-- C6: on a non-empty trimmed line the two length penalties are mutually
exclusive, testing the 60 threshold first: length > 60 gives -25 and the
"Too long" warning, else length > 45 gives -15 and the "Long" warning, else
neither fires. -/
theorem c6_length_penalty (s : String) (h : (pyStrip s).data ≠ []) :
    (60 < (pyStrip s).data.length →
      (scoreLine (some s)).warnings.count "Too long (60+ characters)" = 1 ∧
      (scoreLine (some s)).warnings.count "Long (45+ characters)" = 0 ∧
      (scoreLine (some s)).score =
        max 0 (min 100 (100 - 25
          - 20 * ((spamFound ((pyStrip s).data.map Char.toLower)).length : Int)
          - (if exclaimFires (pyStrip s).data then 10 else 0)
          - (if allCapsSearch (pyStrip s).data then 10 else 0)))) ∧
    (45 < (pyStrip s).data.length ∧ (pyStrip s).data.length ≤ 60 →
      (scoreLine (some s)).warnings.count "Too long (60+ characters)" = 0 ∧
      (scoreLine (some s)).warnings.count "Long (45+ characters)" = 1 ∧
      (scoreLine (some s)).score =
        max 0 (min 100 (100 - 15
          - 20 * ((spamFound ((pyStrip s).data.map Char.toLower)).length : Int)
          - (if exclaimFires (pyStrip s).data then 10 else 0)
          - (if allCapsSearch (pyStrip s).data then 10 else 0)))) ∧
    ((pyStrip s).data.length ≤ 45 →
      (scoreLine (some s)).warnings.count "Too long (60+ characters)" = 0 ∧
      (scoreLine (some s)).warnings.count "Long (45+ characters)" = 0 ∧
      (scoreLine (some s)).score =
        max 0 (min 100 (100
          - 20 * ((spamFound ((pyStrip s).data.map Char.toLower)).length : Int)
          - (if exclaimFires (pyStrip s).data then 10 else 0)
          - (if allCapsSearch (pyStrip s).data then 10 else 0)))) := by
  rw [scoreLine_of_ne s h, scoreNonEmpty_warnings, scoreNonEmpty_score]
  have hsp1 : ∀ t ∈ SPAM_TERMS, spamWarning t ≠ "Too long (60+ characters)" := by
    decide
  have hsp2 : ∀ t ∈ SPAM_TERMS, spamWarning t ≠ "Long (45+ characters)" := by
    decide
  have hB1 := count_spam_seg_zero ((pyStrip s).data.map Char.toLower) _ hsp1
  have hB2 := count_spam_seg_zero ((pyStrip s).data.map Char.toLower) _ hsp2
  have hC1 := count_ite_singleton_zero (exclaimFires (pyStrip s).data)
    "Too many exclamation marks" "Too long (60+ characters)" (by decide)
  have hC2 := count_ite_singleton_zero (exclaimFires (pyStrip s).data)
    "Too many exclamation marks" "Long (45+ characters)" (by decide)
  have hD1 := count_ite_singleton_zero (allCapsSearch (pyStrip s).data)
    "Contains ALL CAPS words" "Too long (60+ characters)" (by decide)
  have hD2 := count_ite_singleton_zero (allCapsSearch (pyStrip s).data)
    "Contains ALL CAPS words" "Long (45+ characters)" (by decide)
  refine ⟨fun h60 => ?_, fun h4560 => ?_, fun h45 => ?_⟩
  · have hLW : lengthWarnings (pyStrip s).data.length =
        ["Too long (60+ characters)"] := by
      unfold lengthWarnings; rw [if_pos h60]
    have hLP : lengthPenalty (pyStrip s).data.length = 25 := by
      unfold lengthPenalty; rw [if_pos h60]
    refine ⟨?_, ?_, ?_⟩
    · rw [List.count_append, List.count_append, List.count_append, hLW,
        hB1, hC1, hD1]
      decide
    · rw [List.count_append, List.count_append, List.count_append, hLW,
        hB2, hC2, hD2]
      decide
    · unfold rawScore
      rw [hLP]
  · have hLW : lengthWarnings (pyStrip s).data.length =
        ["Long (45+ characters)"] := by
      unfold lengthWarnings; rw [if_neg (by omega), if_pos h4560.1]
    have hLP : lengthPenalty (pyStrip s).data.length = 15 := by
      unfold lengthPenalty; rw [if_neg (by omega), if_pos h4560.1]
    refine ⟨?_, ?_, ?_⟩
    · rw [List.count_append, List.count_append, List.count_append, hLW,
        hB1, hC1, hD1]
      decide
    · rw [List.count_append, List.count_append, List.count_append, hLW,
        hB2, hC2, hD2]
      decide
    · unfold rawScore
      rw [hLP]
  · have hLW : lengthWarnings (pyStrip s).data.length = [] := by
      unfold lengthWarnings; rw [if_neg (by omega), if_neg (by omega)]
    have hLP : lengthPenalty (pyStrip s).data.length = 0 := by
      unfold lengthPenalty; rw [if_neg (by omega), if_neg (by omega)]
    refine ⟨?_, ?_, ?_⟩
    · rw [List.count_append, List.count_append, List.count_append, hLW,
        hB1, hC1, hD1]
      decide
    · rw [List.count_append, List.count_append, List.count_append, hLW,
        hB2, hC2, hD2]
      decide
    · unfold rawScore
      rw [hLP]
      ring_nf

end SubjectScorer

namespace SubjectScorer

theorem c6_witness :
    (pyStrip "aaaaaaaaaaaaaaaaaaaaaaaaaaaaaaaaaaaaaaaaaaaaaaaaaaaaaaaaaaaaaaaaaaaaaa").data ≠ [] ∧
      60 < (pyStrip "aaaaaaaaaaaaaaaaaaaaaaaaaaaaaaaaaaaaaaaaaaaaaaaaaaaaaaaaaaaaaaaaaaaaaa").data.length ∧
      (scoreLine (some "aaaaaaaaaaaaaaaaaaaaaaaaaaaaaaaaaaaaaaaaaaaaaaaaaaaaaaaaaaaaaaaaaaaaaa")).warnings.count
          "Too long (60+ characters)" = 1 ∧
      (scoreLine (some "aaaaaaaaaaaaaaaaaaaaaaaaaaaaaaaaaaaaaaaaaaaaaaaaaaaaaaaaaaaaaaaaaaaaaa")).warnings.count
          "Long (45+ characters)" = 0 := by
  have hm := c6_length_penalty
    "aaaaaaaaaaaaaaaaaaaaaaaaaaaaaaaaaaaaaaaaaaaaaaaaaaaaaaaaaaaaaaaaaaaaaa"
    (by decide)
  have hc := hm.1 (by decide)
  exact ⟨by decide, by decide, hc.1, hc.2.1⟩

/-! ### C7: flat all-caps penalty -/

/-- C7: on a non-empty trimmed line, the presence of a word-boundary-delimited
run of 4 or more uppercase letters (the regex search) subtracts exactly 10 and
appends "Contains ALL CAPS words" exactly once, however many runs exist; with
no such run neither happens. -/
theorem c7_all_caps (s : String) (h : (pyStrip s).data ≠ []) :
    (allCapsSearch (pyStrip s).data = true →
      (scoreLine (some s)).warnings.count "Contains ALL CAPS words" = 1 ∧
      (scoreLine (some s)).score =
        max 0 (min 100 (100 - lengthPenalty (pyStrip s).data.length
          - 20 * ((spamFound ((pyStrip s).data.map Char.toLower)).length : Int)
          - (if exclaimFires (pyStrip s).data then 10 else 0) - 10))) ∧
    (allCapsSearch (pyStrip s).data = false →
      (scoreLine (some s)).warnings.count "Contains ALL CAPS words" = 0 ∧
      (scoreLine (some s)).score =
        max 0 (min 100 (100 - lengthPenalty (pyStrip s).data.length
          - 20 * ((spamFound ((pyStrip s).data.map Char.toLower)).length : Int)
          - (if exclaimFires (pyStrip s).data then 10 else 0)))) := by
  rw [scoreLine_of_ne s h, scoreNonEmpty_warnings, scoreNonEmpty_score]
  have hA : (lengthWarnings (pyStrip s).data.length).count
      "Contains ALL CAPS words" = 0 := by
    unfold lengthWarnings
    split_ifs <;> decide
  have hB := count_spam_seg_zero ((pyStrip s).data.map Char.toLower)
    "Contains ALL CAPS words" (by decide)
  have hC := count_ite_singleton_zero (exclaimFires (pyStrip s).data)
    "Too many exclamation marks" "Contains ALL CAPS words" (by decide)
  constructor
  · intro hcaps
    constructor
    · rw [List.count_append, List.count_append, List.count_append, hA, hB, hC,
        hcaps]
      decide
    · unfold rawScore
      rw [hcaps, if_pos rfl]
  · intro hcaps
    constructor
    · rw [List.count_append, List.count_append, List.count_append, hA, hB, hC,
        hcaps]
      decide
    · unfold rawScore
      rw [hcaps, if_neg Bool.false_ne_true]
      ring_nf

theorem c7_witness :
    (pyStrip "NASA and NATO news").data ≠ [] ∧
      allCapsSearch (pyStrip "NASA and NATO news").data = true ∧
      (scoreLine (some "NASA and NATO news")).warnings.count
        "Contains ALL CAPS words" = 1 := by
  have hm := c7_all_caps "NASA and NATO news" (by decide)
  exact ⟨by decide, by decide, (hm.1 (by decide)).1⟩

/-! ### C8: warnings empty iff nothing fired on a non-empty line -/

lemma scoreLine_of_empty (s : String) (hd : (pyStrip s).data = []) :
    scoreLine (some s) =
      { subject := pyStrip s, score := 0, length := 0, spam_risk := "High",
        warnings := ["Empty subject line"] } := by
  unfold scoreLine
  rw [Option.getD_some, if_pos (by rw [hd]; rfl)]

lemma lengthWarnings_eq_nil (n : Nat) : lengthWarnings n = [] ↔ n ≤ 45 := by
  unfold lengthWarnings
  split_ifs <;> simp <;> omega

lemma ite_singleton_eq_nil (b : Bool) (x : String) :
    (if b then [x] else []) = [] ↔ b = false := by
  cases b <;> simp

/-- C8: the warnings list of a report is empty iff the trimmed line is
non-empty and none of the four penalty rules fired on it. -/
theorem c8_warnings_empty_iff (raw : Option String) :
    (scoreLine raw).warnings = [] ↔
      ((pyStrip (raw.getD "")).data ≠ [] ∧
        (pyStrip (raw.getD "")).data.length ≤ 45 ∧
        spamFound ((pyStrip (raw.getD "")).data.map Char.toLower) = [] ∧
        exclaimFires (pyStrip (raw.getD "")).data = false ∧
        allCapsSearch (pyStrip (raw.getD "")).data = false) := by
  rw [scoreLine_getD raw]
  by_cases hd : (pyStrip (raw.getD "")).data = []
  · rw [scoreLine_of_empty _ hd]
    simp [hd]
  · rw [scoreLine_of_ne _ hd, scoreNonEmpty_warnings]
    rw [List.append_eq_nil, List.append_eq_nil, List.append_eq_nil,
      lengthWarnings_eq_nil, List.map_eq_nil_iff, ite_singleton_eq_nil,
      ite_singleton_eq_nil]
    constructor
    · rintro ⟨⟨⟨h45, hSW⟩, hEW⟩, hCW⟩
      exact ⟨hd, h45, hSW, hEW, hCW⟩
    · rintro ⟨-, h45, hSW, hEW, hCW⟩
      exact ⟨⟨⟨h45, hSW⟩, hEW⟩, hCW⟩

end SubjectScorer

namespace SubjectScorer

/-! ### C10: "guarantee" fires inside "guaranteed" -/

/-- C10: since "guarantee" precedes "guaranteed" in the term list and matching
is substring containment, a line containing "guaranteed" (case-insensitively)
matches both terms: both penalties stack (at least 40 points of spam-term
deduction) and the two warnings appear in list order. -/
theorem c10_guaranteed_double (s : String) (h : (pyStrip s).data ≠ [])
    (hg : "guaranteed".data <:+: ((pyStrip s).data.map Char.toLower)) :
    "guarantee" ∈ spamFound ((pyStrip s).data.map Char.toLower) ∧
      "guaranteed" ∈ spamFound ((pyStrip s).data.map Char.toLower) ∧
      List.Sublist [spamWarning "guarantee", spamWarning "guaranteed"]
        (scoreLine (some s)).warnings ∧
      40 ≤ 20 * ((spamFound ((pyStrip s).data.map Char.toLower)).length : Int) := by
  have hg9 : "guarantee".data <:+: ((pyStrip s).data.map Char.toLower) :=
    List.IsInfix.trans (by decide) hg
  have h1 : "guarantee" ∈ spamFound ((pyStrip s).data.map Char.toLower) :=
    List.mem_filter.mpr ⟨by decide, decide_eq_true hg9⟩
  have h2 : "guaranteed" ∈ spamFound ((pyStrip s).data.map Char.toLower) :=
    List.mem_filter.mpr ⟨by decide, decide_eq_true hg⟩
  have hsubL : List.Sublist ["guarantee", "guaranteed"] SPAM_TERMS := by decide
  have hfsub := hsubL.filter
    (fun t => decide (t.data <:+: ((pyStrip s).data.map Char.toLower)))
  have hff : List.filter
      (fun t => decide (t.data <:+: ((pyStrip s).data.map Char.toLower)))
      ["guarantee", "guaranteed"] = ["guarantee", "guaranteed"] := by
    simp [List.filter_cons, hg9, hg]
  rw [hff] at hfsub
  have hlen2 : 2 ≤ (spamFound ((pyStrip s).data.map Char.toLower)).length := by
    simpa using hfsub.length_le
  refine ⟨h1, h2, ?_, by omega⟩
  rw [scoreLine_of_ne s h, scoreNonEmpty_warnings]
  have hw2 : List.Sublist [spamWarning "guarantee", spamWarning "guaranteed"]
      ((spamFound ((pyStrip s).data.map Char.toLower)).map spamWarning) := by
    simpa using hfsub.map spamWarning
  have a1 := List.sublist_append_right
    (lengthWarnings (pyStrip s).data.length)
    ((spamFound ((pyStrip s).data.map Char.toLower)).map spamWarning)
  have a2 := List.sublist_append_left
    (lengthWarnings (pyStrip s).data.length
      ++ (spamFound ((pyStrip s).data.map Char.toLower)).map spamWarning)
    (if exclaimFires (pyStrip s).data
      then ["Too many exclamation marks"] else [])
  have a3 := List.sublist_append_left
    (lengthWarnings (pyStrip s).data.length
      ++ (spamFound ((pyStrip s).data.map Char.toLower)).map spamWarning
      ++ (if exclaimFires (pyStrip s).data
          then ["Too many exclamation marks"] else []))
    (if allCapsSearch (pyStrip s).data
      then ["Contains ALL CAPS words"] else [])
  exact hw2.trans ((a1.trans a2).trans a3)

theorem c10_witness :
    (pyStrip "Results guaranteed here").data ≠ [] ∧
      ("guaranteed".data <:+:
        ((pyStrip "Results guaranteed here").data.map Char.toLower)) ∧
      "guarantee" ∈ spamFound
        ((pyStrip "Results guaranteed here").data.map Char.toLower) ∧
      List.Sublist [spamWarning "guarantee", spamWarning "guaranteed"]
        (scoreLine (some "Results guaranteed here")).warnings := by
  have hm := c10_guaranteed_double "Results guaranteed here" (by decide)
    (by decide)
  exact ⟨by decide, by decide, hm.1, hm.2.2.1⟩

end SubjectScorer

namespace SubjectScorer

/-! ### C5: best_subject is the stable argmax -/

lemma maxByScore_split :
    ∀ (rs : List ScoreReport) (b : ScoreReport),
      ∃ pre post, b :: rs = pre ++ maxByScore b rs :: post ∧
        (∀ r ∈ b :: rs, r.score ≤ (maxByScore b rs).score) ∧
        (∀ r ∈ pre, r.score < (maxByScore b rs).score) := by
  intro rs
  induction rs with
  | nil =>
    intro b
    refine ⟨[], [], rfl, ?_, ?_⟩
    · intro r hr
      rcases List.mem_singleton.mp hr with rfl
      exact le_refl _
    · intro r hr
      cases hr
  | cons r rs ih =>
    intro b
    by_cases hbr : b.score < r.score
    · obtain ⟨pre, post, heq, hle, hlt⟩ := ih r
      have hdef : maxByScore b (r :: rs) = maxByScore r rs := by
        show maxByScore (if b.score < r.score then r else b) rs = _
        rw [if_pos hbr]
      rw [hdef]
      refine ⟨b :: pre, post, ?_, ?_, ?_⟩
      · rw [List.cons_append, ← heq]
      · intro x hx
        rcases List.mem_cons.mp hx with rfl | hx'
        · exact le_of_lt
            (lt_of_lt_of_le hbr (hle r (List.mem_cons_self _ _)))
        · exact hle x hx'
      · intro x hx
        rcases List.mem_cons.mp hx with rfl | hx'
        · exact lt_of_lt_of_le hbr (hle r (List.mem_cons_self _ _))
        · exact hlt x hx'
    · obtain ⟨pre, post, heq, hle, hlt⟩ := ih b
      have hrb : r.score ≤ b.score := le_of_not_lt hbr
      have hdef : maxByScore b (r :: rs) = maxByScore b rs := by
        show maxByScore (if b.score < r.score then r else b) rs = _
        rw [if_neg hbr]
      rw [hdef]
      have hbm : b.score ≤ (maxByScore b rs).score :=
        hle b (List.mem_cons_self _ _)
      cases pre with
      | nil =>
        have hm : maxByScore b rs = b := by
          simpa using congrArg (fun l => l.headD b) heq.symm
        have hpost : b :: rs = maxByScore b rs :: post := by simpa using heq
        refine ⟨[], r :: rs, ?_, ?_, ?_⟩
        · rw [List.nil_append, hm]
        · intro x hx
          rcases List.mem_cons.mp hx with rfl | hx'
          · exact hbm
          · rcases List.mem_cons.mp hx' with rfl | hx''
            · exact le_trans hrb hbm
            · exact hle x (List.mem_cons_of_mem _ hx'')
        · intro x hx
          cases hx
      | cons p pre₁ =>
        have hp : p = b ∧ rs = pre₁ ++ maxByScore b rs :: post := by
          constructor
          · have := congrArg (fun l => l.headD b) heq
            simpa using this.symm
          · have := congrArg List.tail heq
            simpa using this
        refine ⟨b :: r :: pre₁, post, ?_, ?_, ?_⟩
        · rw [List.cons_append, List.cons_append, ← hp.2]
        · intro x hx
          rcases List.mem_cons.mp hx with rfl | hx'
          · exact hbm
          · rcases List.mem_cons.mp hx' with rfl | hx''
            · exact le_trans hrb hbm
            · exact hle x (List.mem_cons_of_mem _ hx'')
        · have hblt : b.score < (maxByScore b rs).score :=
            hp.1 ▸ hlt p (List.mem_cons_self _ _)
          intro x hx
          rcases List.mem_cons.mp hx with rfl | hx'
          · exact hblt
          · rcases List.mem_cons.mp hx' with rfl | hx''
            · exact lt_of_le_of_lt hrb hblt
            · exact hlt x (List.mem_cons_of_mem _ hx'')

/-- C5: on a non-empty batch, best_subject is the subject of the report with
the maximum score, keeping the first maximum in input order (every report in
the prefix before it scores strictly less, every report at most as much);
on the empty batch the result is results = [] and best_subject = "". -/
theorem c5_stable_argmax (lines : List (Option String)) (h : lines ≠ []) :
    subject_line_scorer [] = { best_subject := "", results := [] } ∧
      ∃ m pre post,
        (subject_line_scorer lines).results = pre ++ m :: post ∧
        (subject_line_scorer lines).best_subject = m.subject ∧
        (∀ r ∈ (subject_line_scorer lines).results, r.score ≤ m.score) ∧
        ∀ r ∈ pre, r.score < m.score := by
  refine ⟨rfl, ?_⟩
  cases lines with
  | nil => exact absurd rfl h
  | cons a as =>
    obtain ⟨pre, post, heq, hle, hlt⟩ :=
      maxByScore_split (as.map scoreLine) (scoreLine a)
    exact ⟨maxByScore (scoreLine a) (as.map scoreLine), pre, post,
      heq, rfl, hle, hlt⟩

theorem c5_witness :
    ([some "Hi", some "WINNER!! FREE FREE FREE"] ≠
        ([] : List (Option String))) ∧
      (subject_line_scorer [] = { best_subject := "", results := [] } ∧
        ∃ m pre post,
          (subject_line_scorer
            [some "Hi", some "WINNER!! FREE FREE FREE"]).results =
              pre ++ m :: post ∧
          (subject_line_scorer
            [some "Hi", some "WINNER!! FREE FREE FREE"]).best_subject =
              m.subject ∧
          (∀ r ∈ (subject_line_scorer
            [some "Hi", some "WINNER!! FREE FREE FREE"]).results,
              r.score ≤ m.score) ∧
          ∀ r ∈ pre, r.score < m.score) :=
  ⟨by decide,
    c5_stable_argmax [some "Hi", some "WINNER!! FREE FREE FREE"] (by decide)⟩

end SubjectScorer
